import Mathlib

/-!
The package corser: CORS options resolved once from a key-value configuration

A shallow embedding of `configurator.go`.  The provider `corser` holds a
configuration getter, a `comfig.Once` cell and a key.  `CorsOptions` runs a
closure through the cell: the closure asks the getter for the section stored
under the key, returns `defaultOptions` when the section has no entries and
otherwise lets `figure` fill a `CorsOptions` value that is copied field by
field into a `cors.Options`.  A Go panic is the `Except.error` branch of a
result; state that a call can change (the cell, the getter's backing store,
the log of external invocations) is passed in and handed back.
-/

/-! ## Values that cross the boundary to the libraries -/

/-- Go `error` values: one raised by a collaborator, or one produced by
`errors.Wrap` around an earlier error. -/
inductive GoError where
  | raised (text : String)
  | wrapped (cause : GoError) (message : String)
  deriving Repr

/-- Go `errors.Wrap(err, message)` for a non-nil `err`. -/
def errors.Wrap (err : GoError) (message : String) : GoError :=
  GoError.wrapped err message

/-- Go `errors.Cause`: the innermost error of a chain of wraps. -/
def errors.Cause : GoError → GoError
  | GoError.raised t => GoError.raised t
  | GoError.wrapped c _ => errors.Cause c

/-- What an `interface{}` entry of a configuration section can hold. -/
inductive Value where
  | null
  | bool (b : Bool)
  | int (i : Int)
  | str (s : String)
  | list (items : List Value)

/-- The `map[string]interface{}` a getter hands out, as its list of entries;
`len(raw) == 0` is emptiness of the list. -/
abbrev Section := List (String × Value)

/-- `raw[key]` with its presence flag. -/
def Section.get (raw : Section) (key : String) : Option Value :=
  List.lookup key raw

/-! ## The source's declarations -/

/-- Source constant `DefaultConfigKey`. -/
def DefaultConfigKey : String := "cors_options"

/-- The options type of the CORS library (go-chi `cors.Options`), with the
nine fields the test file lists. -/
structure cors.Options where
  AllowedOrigins : List String := []
  AllowOriginFunc : Option (String → Bool) := none
  AllowedMethods : List String := []
  AllowedHeaders : List String := []
  ExposedHeaders : List String := []
  AllowCredentials : Bool := false
  MaxAge : Int := 0
  OptionsPassthrough : Bool := false
  Debug : Bool := false

def http.MethodHead : String := "HEAD"
def http.MethodGet : String := "GET"
def http.MethodPost : String := "POST"
def http.MethodPut : String := "PUT"
def http.MethodPatch : String := "PATCH"
def http.MethodDelete : String := "DELETE"

/-- Source variable `defaultOptions` (configurator.go, lines 15-27). -/
def defaultOptions : cors.Options :=
  { AllowedOrigins := ["*"]
    AllowedMethods :=
      [http.MethodHead, http.MethodGet, http.MethodPost, http.MethodPut,
       http.MethodPatch, http.MethodDelete]
    AllowedHeaders := ["*"]
    AllowCredentials := false }

/-- Source struct `CorsOptions` (lines 36-73): the value `figure` fills. -/
structure CorsOptions where
  AllowedOrigins : List String := []
  AllowedMethods : List String := []
  AllowedHeaders : List String := []
  ExposedHeaders : List String := []
  AllowCredentials : Bool := false
  MaxAge : Int := 0
  OptionsPassthrough : Bool := false
  Debug : Bool := false
  deriving DecidableEq, Repr

/-- The `fig` tags of the eight fields of `CorsOptions`, in field order. -/
def CorsOptions.tags : List String :=
  ["allowed_origins", "allowed_methods", "allowed_headers", "exposed_headers",
   "allow_credentials", "max_age", "options_passthrough", "debug"]

/-! ## Collaborators -/

/-- One invocation of a collaborator, as recorded in the log. -/
inductive Event where
  | GetStringMap (key : String)
  | figureOut (raw : Section)

/-- A `kv.Getter`: `GetStringMap` reads, and may change, a backing store of
type `σ` that lives outside the provider. -/
structure kv.Getter (σ : Type) where
  GetStringMap : String → σ → Except GoError Section × σ

/-- Everything outside the provider that a call can touch: the getter's
backing store and the log of collaborator invocations, oldest first. -/
structure World (σ : Type) where
  store : σ
  log : List Event

/-- The library functions the source calls and whose bodies are not part of
the repository: `figure.Out(&newOpts).From(raw).Please()`, returning the
filled value or the error, and `cors.Handler`, producing a middleware of some
type `H`. -/
structure Libraries (H : Type) where
  figureOut : Section → Except GoError CorsOptions
  Handler : cors.Options → H

/-- Modelled from the spec: the memoization cell `comfig.Once`, whose body is
not in the repository.  It is "a single-assignment memoization cell holding
the resolved PolicyOptions (or the panic that occurred while resolving)";
`unresolved` is the zero value of the Go struct. -/
inductive comfig.Once (α : Type) where
  | unresolved
  | resolved (value : α)
  | panicked (err : GoError)

/-- Modelled from the spec: `comfig.Once.Do`.  "If already resolved, return
cached value immediately (no re-read, no re-decode)"; otherwise run `f` once
and keep what it produced, the value or the panic.  `f` acts on the state `τ`
it closes over. -/
def comfig.Once.Do {α τ : Type} (o : comfig.Once α)
    (f : τ → Except GoError α × τ) (t : τ) :
    Except GoError α × comfig.Once α × τ :=
  match o with
  | comfig.Once.resolved v => (Except.ok v, comfig.Once.resolved v, t)
  | comfig.Once.panicked e => (Except.error e, comfig.Once.panicked e, t)
  | comfig.Once.unresolved =>
    match f t with
    | (Except.ok v, t') => (Except.ok v, comfig.Once.resolved v, t')
    | (Except.error e, t') => (Except.error e, comfig.Once.panicked e, t')

/-! ## The provider -/

/-- Source struct `corser` (lines 76-80). -/
structure corser (σ : Type) where
  getter : kv.Getter σ
  once : comfig.Once cors.Options
  key : String

/-- Source `NewCorser` (lines 83-88): the cell is left at its zero value. -/
def NewCorser {σ : Type} (getter : kv.Getter σ) (configKey : String) : corser σ :=
  { getter := getter, once := comfig.Once.unresolved, key := configKey }

/-- The closure passed to `once.Do` in `CorsOptions` (lines 93-121). -/
def corser.CorsOptions.func1 {σ H : Type} (lib : Libraries H) (c : corser σ)
    (w : World σ) : Except GoError cors.Options × World σ :=
  let opts := defaultOptions
  match c.getter.GetStringMap c.key w.store with
  | (Except.error err, s) =>
    (Except.error (errors.Wrap err "failed to get cors options"),
      { store := s, log := w.log ++ [Event.GetStringMap c.key] })
  | (Except.ok raw, s) =>
    let w1 : World σ := { store := s, log := w.log ++ [Event.GetStringMap c.key] }
    if raw.length = 0 then
      (Except.ok opts, w1)
    else
      let w2 : World σ := { store := w1.store, log := w1.log ++ [Event.figureOut raw] }
      match lib.figureOut raw with
      | Except.error err =>
        (Except.error (errors.Wrap err "failed to figure out cors options"), w2)
      | Except.ok newOpts =>
        (Except.ok
          { AllowedOrigins := newOpts.AllowedOrigins
            AllowedMethods := newOpts.AllowedMethods
            AllowedHeaders := newOpts.AllowedHeaders
            ExposedHeaders := newOpts.ExposedHeaders
            AllowCredentials := newOpts.AllowCredentials
            MaxAge := newOpts.MaxAge
            OptionsPassthrough := newOpts.OptionsPassthrough
            Debug := newOpts.Debug }, w2)

/-- Source method `(*corser).CorsOptions` (lines 92-122): the result (or the
panic), the provider afterwards and the world afterwards. -/
def corser.CorsOptions {σ H : Type} (lib : Libraries H) (c : corser σ) (w : World σ) :
    Except GoError cors.Options × corser σ × World σ :=
  match c.once.Do (corser.CorsOptions.func1 lib c) w with
  | (r, o, w') => (r, { c with once := o }, w')

/-- Source method `(*corser).CorsHandler` (lines 125-127). -/
def corser.CorsHandler {σ H : Type} (lib : Libraries H) (c : corser σ) (w : World σ) :
    Except GoError H × corser σ × World σ :=
  match corser.CorsOptions lib c w with
  | (Except.ok opts, c', w') => (Except.ok (lib.Handler opts), c', w')
  | (Except.error e, c', w') => (Except.error e, c', w')

/-! ## The decoding library, from its description -/

/-- Modelled from the spec: the conversions of the decoding library `figure`
(not part of the repository) for the three field types of the configuration
table: sequence of strings, boolean, integer.  Each either yields the typed
value or fails ("type mismatch, unparseable value"). -/
structure figure.Hooks where
  strings : Value → Except GoError (List String)
  bool : Value → Except GoError Bool
  int : Value → Except GoError Int

/-- Modelled from the spec: one row of the field-tag-driven mapping of
`figure`: "each field reads from a specific named key ... missing keys leave
the corresponding field at its zero value". -/
def figure.field {α : Type} (hook : Value → Except GoError α) (raw : Section)
    (tag : String) (zero : α) : Except GoError α :=
  match raw.get tag with
  | none => Except.ok zero
  | some v => hook v

/-- Modelled from the spec: `figure.Out(&newOpts).From(raw).Please()` for the
struct `CorsOptions`, whose body is not part of the repository.  The eight
tagged fields are read in field order, keys without a field are never looked
at ("unrecognized keys are ignored"), and the first failing conversion is the
decode failure. -/
def figure.Please (h : figure.Hooks) (raw : Section) : Except GoError CorsOptions :=
  match figure.field h.strings raw "allowed_origins" [] with
  | Except.error e => Except.error e
  | Except.ok allowedOrigins =>
  match figure.field h.strings raw "allowed_methods" [] with
  | Except.error e => Except.error e
  | Except.ok allowedMethods =>
  match figure.field h.strings raw "allowed_headers" [] with
  | Except.error e => Except.error e
  | Except.ok allowedHeaders =>
  match figure.field h.strings raw "exposed_headers" [] with
  | Except.error e => Except.error e
  | Except.ok exposedHeaders =>
  match figure.field h.bool raw "allow_credentials" false with
  | Except.error e => Except.error e
  | Except.ok allowCredentials =>
  match figure.field h.int raw "max_age" 0 with
  | Except.error e => Except.error e
  | Except.ok maxAge =>
  match figure.field h.bool raw "options_passthrough" false with
  | Except.error e => Except.error e
  | Except.ok optionsPassthrough =>
  match figure.field h.bool raw "debug" false with
  | Except.error e => Except.error e
  | Except.ok debug =>
    Except.ok
      { AllowedOrigins := allowedOrigins
        AllowedMethods := allowedMethods
        AllowedHeaders := allowedHeaders
        ExposedHeaders := exposedHeaders
        AllowCredentials := allowCredentials
        MaxAge := maxAge
        OptionsPassthrough := optionsPassthrough
        Debug := debug }

/-- The libraries with `figure` as described by the spec and the conversions
`h`. -/
def figureLib {H : Type} (h : figure.Hooks) (handler : cors.Options → H) : Libraries H :=
  { figureOut := figure.Please h, Handler := handler }

/-! ## Fixtures for concrete evaluations -/

/-- Conversion of one list item to a string. -/
def sample.item : Value → Except GoError String
  | Value.str s => Except.ok s
  | _ => Except.error (GoError.raised "unable to cast item to string")

/-- Sample conversions: a value of the field's type converts to itself, the
strings "true" and "false" convert to booleans, everything else is a type
mismatch. -/
def sample.hooks : figure.Hooks :=
  { strings := fun v =>
      match v with
      | Value.list items => items.mapM sample.item
      | _ => Except.error (GoError.raised "unable to cast to []string")
    bool := fun v =>
      match v with
      | Value.bool b => Except.ok b
      | Value.str "true" => Except.ok true
      | Value.str "false" => Except.ok false
      | _ => Except.error (GoError.raised "unable to cast to bool")
    int := fun v =>
      match v with
      | Value.int i => Except.ok i
      | _ => Except.error (GoError.raised "unable to cast to int") }

/-- Sample libraries: `figure` with the sample conversions and a handler
factory that hands back the options it was built from. -/
def sample.lib : Libraries cors.Options := figureLib sample.hooks id

/-- A getter over a fixed configuration: a key that is not configured yields
the empty section, as the test case `default_options` expects of
`non-existent-key`.  It has no backing store of its own. -/
def sample.fileGetter (cfg : List (String × Section)) : kv.Getter Unit :=
  { GetStringMap := fun key s => (Except.ok ((List.lookup key cfg).getD []), s) }

/-- The section of the test case `full_config`. -/
def sample.fullSection : Section :=
  [ ("allowed_origins",
      Value.list [Value.str "http://localhost:3000", Value.str "http://localhost:3001",
        Value.str "http://localpost:3000"]),
    ("allowed_methods",
      Value.list [Value.str "GET", Value.str "POST", Value.str "PUT", Value.str "DELETE"]),
    ("allowed_headers",
      Value.list [Value.str "X-Header", Value.str "X-Header2", Value.str "X-Header3"]),
    ("exposed_headers", Value.list [Value.str "X-Header"]),
    ("allow_credentials", Value.bool true),
    ("max_age", Value.int 3600),
    ("options_passthrough", Value.bool true),
    ("debug", Value.bool true) ]

/-- What the section of `full_config` decodes to. -/
def sample.fullOptions : CorsOptions :=
  { AllowedOrigins :=
      ["http://localhost:3000", "http://localhost:3001", "http://localpost:3000"]
    AllowedMethods := ["GET", "POST", "PUT", "DELETE"]
    AllowedHeaders := ["X-Header", "X-Header2", "X-Header3"]
    ExposedHeaders := ["X-Header"]
    AllowCredentials := true
    MaxAge := 3600
    OptionsPassthrough := true
    Debug := true }

/-- The section of the test case `allowed_origins`. -/
def sample.originsSection : Section :=
  [("allowed_origins", Value.list [Value.str "http://localhost:3000"])]

/-- A section whose `allow_credentials` is a string that spells no boolean. -/
def sample.badSection : Section :=
  [ ("allowed_origins", Value.list [Value.str "http://localhost:3000"]),
    ("allow_credentials", Value.str "maybe") ]

/-- A section whose only key is not one of the eight recognized keys. -/
def sample.commentSection : Section :=
  [("comment", Value.str "managed by ops")]

/-- The section of the test case `allowed_origins` with an unrecognized key in
front. -/
def sample.annotatedSection : Section :=
  ("comment", Value.str "managed by ops") :: sample.originsSection

/-- The sections the test cases of `main_test.go` read, with four more keys
for the sections above. -/
def sample.testConfig : List (String × Section) :=
  [ ("origins", sample.originsSection),
    ("methods", [("allowed_methods", Value.list [Value.str "GET", Value.str "POST"])]),
    ("headers", [("allowed_headers", Value.list [Value.str "X-Header"])]),
    ("exposed", [("exposed_headers", Value.list [Value.str "X-Header"])]),
    ("cors_options", sample.fullSection),
    ("bad", sample.badSection),
    ("comment_only", sample.commentSection),
    ("annotated", sample.annotatedSection) ]

/-- The world at program start for a getter without a backing store. -/
def sample.start : World Unit := { store := (), log := [] }

/-- A getter that fails on every request. -/
def sample.brokenGetter : kv.Getter Unit :=
  { GetStringMap := fun _ s => (Except.error (GoError.raised "failed to parse config"), s) }

/-- A getter whose answers change: the backing store counts the requests, the
first request fails when `failFirst` is set and otherwise yields `first`,
every later request yields `later`. -/
def sample.changingGetter (failFirst : Bool) (first later : Section) : kv.Getter Nat :=
  { GetStringMap := fun _ n =>
      if n = 0 then
        (if failFirst then Except.error (GoError.raised "backend not ready")
          else Except.ok first, n + 1)
      else (Except.ok later, n + 1) }

/-- The options the test case `full_config` expects. -/
def sample.fullResult : cors.Options :=
  { AllowedOrigins :=
      ["http://localhost:3000", "http://localhost:3001", "http://localpost:3000"]
    AllowOriginFunc := none
    AllowedMethods := ["GET", "POST", "PUT", "DELETE"]
    AllowedHeaders := ["X-Header", "X-Header2", "X-Header3"]
    ExposedHeaders := ["X-Header"]
    AllowCredentials := true
    MaxAge := 3600
    OptionsPassthrough := true
    Debug := true }

/-- The world at program start for a getter that counts its requests. -/
def sample.counting : World Nat := { store := 0, log := [] }

/-- A getter that answers the first request with the section of `full_config`
and every later one with the section of `allowed_origins`. -/
def sample.driftingGetter : kv.Getter Nat :=
  sample.changingGetter false sample.fullSection sample.originsSection

/-- A getter that fails on the first request and answers every later one with
the section of `full_config`. -/
def sample.recoveringGetter : kv.Getter Nat :=
  sample.changingGetter true [] sample.fullSection

/-- The error of the first request to `sample.recoveringGetter`, as wrapped by
`CorsOptions`. -/
def sample.getFailure : GoError :=
  GoError.wrapped (GoError.raised "backend not ready") "failed to get cors options"

/-! ## Vocabulary of the statements -/

/-- Number of `GetStringMap` invocations recorded in a log. -/
def getStringMapCalls : List Event → Nat
  | [] => 0
  | Event.GetStringMap _ :: rest => getStringMapCalls rest + 1
  | Event.figureOut _ :: rest => getStringMapCalls rest

/-- Number of decoding attempts recorded in a log. -/
def figureOutCalls : List Event → Nat
  | [] => 0
  | Event.GetStringMap _ :: rest => figureOutCalls rest
  | Event.figureOut _ :: rest => figureOutCalls rest + 1

/-- The two methods of the interface `Corser`. -/
inductive Call where
  | CorsOptions
  | CorsHandler

/-- What a method call handed back. -/
inductive Returned (H : Type) where
  | options (opts : cors.Options)
  | handler (h : H)

/-- One method call on a provider. -/
def corser.call {σ H : Type} (lib : Libraries H) (c : corser σ) (w : World σ) :
    Call → Except GoError (Returned H) × corser σ × World σ
  | Call.CorsOptions =>
    match corser.CorsOptions lib c w with
    | (r, c', w') => (r.map Returned.options, c', w')
  | Call.CorsHandler =>
    match corser.CorsHandler lib c w with
    | (r, c', w') => (r.map Returned.handler, c', w')

/-- A sequence of method calls on one provider, each recovered from if it
panics: the results in call order, the provider and the world at the end. -/
def corser.calls {σ H : Type} (lib : Libraries H) (c : corser σ) (w : World σ) :
    List Call → List (Except GoError (Returned H)) × corser σ × World σ
  | [] => ([], c, w)
  | k :: rest =>
    match corser.call lib c w k with
    | (r, c', w') =>
      match corser.calls lib c' w' rest with
      | (rs, c'', w'') => (r :: rs, c'', w'')

/-- Two sections agree on the eight recognized keys: same presence, same
value. -/
def agreeOnTags (a b : Section) : Prop :=
  ∀ tag ∈ CorsOptions.tags, a.get tag = b.get tag

/-! ## Unfolding lemmas -/

theorem getStringMapCalls_append (l₁ l₂ : List Event) :
    getStringMapCalls (l₁ ++ l₂) = getStringMapCalls l₁ + getStringMapCalls l₂ := by
  induction l₁ with
  | nil => simp [getStringMapCalls]
  | cons e rest ih =>
    cases e
    · simp [getStringMapCalls, ih]; omega
    · simp [getStringMapCalls, ih]

theorem figureOutCalls_append (l₁ l₂ : List Event) :
    figureOutCalls (l₁ ++ l₂) = figureOutCalls l₁ + figureOutCalls l₂ := by
  induction l₁ with
  | nil => simp [figureOutCalls]
  | cons e rest ih =>
    cases e
    · simp [figureOutCalls, ih]
    · simp [figureOutCalls, ih]; omega

/-- On a provider whose cell is unresolved, `CorsOptions` runs the closure and
stores what it produced. -/
theorem CorsOptions_unresolved {σ H : Type} (lib : Libraries H) (c : corser σ)
    (w : World σ) (hc : c.once = comfig.Once.unresolved) :
    corser.CorsOptions lib c w =
      match corser.CorsOptions.func1 lib c w with
      | (Except.ok v, w') => (Except.ok v, { c with once := comfig.Once.resolved v }, w')
      | (Except.error e, w') => (Except.error e, { c with once := comfig.Once.panicked e }, w') := by
  unfold corser.CorsOptions comfig.Once.Do
  rw [hc]
  rcases hf : corser.CorsOptions.func1 lib c w with ⟨r, w'⟩
  cases r <;> simp

/-- On a resolved cell `CorsOptions` hands back the stored value and touches
nothing. -/
theorem CorsOptions_resolved {σ H : Type} (lib : Libraries H) (c : corser σ)
    (w : World σ) (v : cors.Options) (hc : c.once = comfig.Once.resolved v) :
    corser.CorsOptions lib c w = (Except.ok v, c, w) := by
  unfold corser.CorsOptions comfig.Once.Do
  rw [hc]
  cases c
  simp_all

/-- On a cell that holds a panic `CorsOptions` panics again with the stored
error and touches nothing. -/
theorem CorsOptions_panicked {σ H : Type} (lib : Libraries H) (c : corser σ)
    (w : World σ) (e : GoError) (hc : c.once = comfig.Once.panicked e) :
    corser.CorsOptions lib c w = (Except.error e, c, w) := by
  unfold corser.CorsOptions comfig.Once.Do
  rw [hc]
  cases c
  simp_all

theorem func1_get_error {σ H : Type} (lib : Libraries H) (c : corser σ) (w : World σ)
    (err : GoError) (s : σ)
    (hget : c.getter.GetStringMap c.key w.store = (Except.error err, s)) :
    corser.CorsOptions.func1 lib c w =
      (Except.error (errors.Wrap err "failed to get cors options"),
        { store := s, log := w.log ++ [Event.GetStringMap c.key] }) := by
  unfold corser.CorsOptions.func1
  simp [hget]

theorem func1_empty {σ H : Type} (lib : Libraries H) (c : corser σ) (w : World σ)
    (s : σ) (hget : c.getter.GetStringMap c.key w.store = (Except.ok [], s)) :
    corser.CorsOptions.func1 lib c w =
      (Except.ok defaultOptions,
        { store := s, log := w.log ++ [Event.GetStringMap c.key] }) := by
  unfold corser.CorsOptions.func1
  simp [hget]

theorem func1_decode_error {σ H : Type} (lib : Libraries H) (c : corser σ) (w : World σ)
    (raw : Section) (s : σ) (err : GoError)
    (hget : c.getter.GetStringMap c.key w.store = (Except.ok raw, s))
    (hne : raw ≠ []) (hdec : lib.figureOut raw = Except.error err) :
    corser.CorsOptions.func1 lib c w =
      (Except.error (errors.Wrap err "failed to figure out cors options"),
        { store := s,
          log := w.log ++ [Event.GetStringMap c.key] ++ [Event.figureOut raw] }) := by
  unfold corser.CorsOptions.func1
  simp [hget, hne, hdec]

theorem func1_decode_ok {σ H : Type} (lib : Libraries H) (c : corser σ) (w : World σ)
    (raw : Section) (s : σ) (d : CorsOptions)
    (hget : c.getter.GetStringMap c.key w.store = (Except.ok raw, s))
    (hne : raw ≠ []) (hdec : lib.figureOut raw = Except.ok d) :
    corser.CorsOptions.func1 lib c w =
      (Except.ok
        { AllowedOrigins := d.AllowedOrigins
          AllowOriginFunc := none
          AllowedMethods := d.AllowedMethods
          AllowedHeaders := d.AllowedHeaders
          ExposedHeaders := d.ExposedHeaders
          AllowCredentials := d.AllowCredentials
          MaxAge := d.MaxAge
          OptionsPassthrough := d.OptionsPassthrough
          Debug := d.Debug },
        { store := s,
          log := w.log ++ [Event.GetStringMap c.key] ++ [Event.figureOut raw] }) := by
  unfold corser.CorsOptions.func1
  simp [hget, hne, hdec]

/-! ## First call on a fresh provider -/

/-- Claim C1.  When `GetStringMap(key)` succeeds with a section without
entries, `CorsOptions` on a fresh provider returns `defaultOptions`, and
`defaultOptions` is: all origins, the six methods HEAD, GET, POST, PUT, PATCH,
DELETE in that order, all headers, no exposed headers, credentials off,
max-age 0, passthrough off, debug off. -/
theorem CorsOptions_empty_section_returns_defaultOptions {σ H : Type}
    (lib : Libraries H) (getter : kv.Getter σ) (key : String) (w : World σ) (s : σ)
    (hget : getter.GetStringMap key w.store = (Except.ok [], s)) :
    (corser.CorsOptions lib (NewCorser getter key) w).1 = Except.ok defaultOptions ∧
    defaultOptions =
      { AllowedOrigins := ["*"]
        AllowOriginFunc := none
        AllowedMethods := ["HEAD", "GET", "POST", "PUT", "PATCH", "DELETE"]
        AllowedHeaders := ["*"]
        ExposedHeaders := []
        AllowCredentials := false
        MaxAge := 0
        OptionsPassthrough := false
        Debug := false } := by
  refine ⟨?_, rfl⟩
  rw [CorsOptions_unresolved lib _ w rfl,
    func1_empty lib (NewCorser getter key) w s hget]

/-- Witness of C1 on the test case `default_options`: the key
`non-existent-key` of the test configuration. -/
theorem CorsOptions_empty_section_returns_defaultOptions_witness :
    (sample.fileGetter sample.testConfig).GetStringMap "non-existent-key" sample.start.store
        = (Except.ok [], ()) ∧
    (corser.CorsOptions sample.lib
        (NewCorser (sample.fileGetter sample.testConfig) "non-existent-key") sample.start).1
      = Except.ok defaultOptions :=
  ⟨rfl,
    (CorsOptions_empty_section_returns_defaultOptions sample.lib
      (sample.fileGetter sample.testConfig) "non-existent-key" sample.start () rfl).1⟩

/-- Claim C2.  When the section is not empty and decodes to `d`, `CorsOptions`
on a fresh provider returns options whose eight configured fields are those of
`d`, sequences in the same order, and whose `AllowOriginFunc` is unset. -/
theorem CorsOptions_returns_decoded_fields {σ H : Type}
    (lib : Libraries H) (getter : kv.Getter σ) (key : String) (w : World σ)
    (raw : Section) (s : σ) (d : CorsOptions)
    (hget : getter.GetStringMap key w.store = (Except.ok raw, s))
    (hne : raw ≠ []) (hdec : lib.figureOut raw = Except.ok d) :
    ∃ o : cors.Options,
      (corser.CorsOptions lib (NewCorser getter key) w).1 = Except.ok o ∧
      o.AllowedOrigins = d.AllowedOrigins ∧
      o.AllowedMethods = d.AllowedMethods ∧
      o.AllowedHeaders = d.AllowedHeaders ∧
      o.ExposedHeaders = d.ExposedHeaders ∧
      o.AllowCredentials = d.AllowCredentials ∧
      o.MaxAge = d.MaxAge ∧
      o.OptionsPassthrough = d.OptionsPassthrough ∧
      o.Debug = d.Debug ∧
      o.AllowOriginFunc = none := by
  rw [CorsOptions_unresolved lib _ w rfl,
    func1_decode_ok lib (NewCorser getter key) w raw s d hget hne hdec]
  exact ⟨_, rfl, rfl, rfl, rfl, rfl, rfl, rfl, rfl, rfl, rfl⟩

/-- Witness of C2 on the test case `full_config`: three origins, four methods,
three headers, one exposed header, credentials on, max-age 3600, passthrough
on, debug on. -/
theorem CorsOptions_returns_decoded_fields_witness :
    (sample.fileGetter sample.testConfig).GetStringMap DefaultConfigKey sample.start.store
        = (Except.ok sample.fullSection, ()) ∧
    sample.fullSection ≠ [] ∧
    sample.lib.figureOut sample.fullSection = Except.ok sample.fullOptions ∧
    ∃ o : cors.Options,
      (corser.CorsOptions sample.lib
          (NewCorser (sample.fileGetter sample.testConfig) DefaultConfigKey) sample.start).1
        = Except.ok o ∧
      o.AllowedOrigins =
        ["http://localhost:3000", "http://localhost:3001", "http://localpost:3000"] ∧
      o.AllowedMethods = ["GET", "POST", "PUT", "DELETE"] ∧
      o.AllowedHeaders = ["X-Header", "X-Header2", "X-Header3"] ∧
      o.ExposedHeaders = ["X-Header"] ∧
      o.AllowCredentials = true ∧
      o.MaxAge = 3600 ∧
      o.OptionsPassthrough = true ∧
      o.Debug = true ∧
      o.AllowOriginFunc = none :=
  ⟨rfl, by simp [sample.fullSection], rfl,
    CorsOptions_returns_decoded_fields sample.lib (sample.fileGetter sample.testConfig)
      DefaultConfigKey sample.start sample.fullSection () sample.fullOptions rfl
      (by simp [sample.fullSection]) rfl⟩

/-- Claim C5.  When `GetStringMap(key)` returns an error `e`, `CorsOptions` on
a fresh provider returns no options: it panics with `e` wrapped under
"failed to get cors options", `e` stays the cause, and the only collaborator
invocation is the one `GetStringMap`: no decoding is attempted. -/
theorem CorsOptions_get_error_panics {σ H : Type}
    (lib : Libraries H) (getter : kv.Getter σ) (key : String) (w : World σ)
    (e : GoError) (s : σ)
    (hget : getter.GetStringMap key w.store = (Except.error e, s)) :
    (corser.CorsOptions lib (NewCorser getter key) w).1
      = Except.error (errors.Wrap e "failed to get cors options") ∧
    errors.Cause (errors.Wrap e "failed to get cors options") = errors.Cause e ∧
    (corser.CorsOptions lib (NewCorser getter key) w).2.2.log
      = w.log ++ [Event.GetStringMap key] ∧
    figureOutCalls (corser.CorsOptions lib (NewCorser getter key) w).2.2.log
      = figureOutCalls w.log := by
  rw [CorsOptions_unresolved lib _ w rfl,
    func1_get_error lib (NewCorser getter key) w e s hget]
  refine ⟨rfl, rfl, rfl, ?_⟩
  simp [figureOutCalls_append, figureOutCalls]

/-- Witness of C5: a getter that fails on every request. -/
theorem CorsOptions_get_error_panics_witness :
    sample.brokenGetter.GetStringMap DefaultConfigKey sample.start.store
      = (Except.error (GoError.raised "failed to parse config"), ()) ∧
    (corser.CorsOptions sample.lib (NewCorser sample.brokenGetter DefaultConfigKey)
        sample.start).1
      = Except.error
          (GoError.wrapped (GoError.raised "failed to parse config")
            "failed to get cors options") ∧
    (corser.CorsOptions sample.lib (NewCorser sample.brokenGetter DefaultConfigKey)
        sample.start).2.2.log
      = [Event.GetStringMap DefaultConfigKey] :=
  ⟨rfl,
    (CorsOptions_get_error_panics sample.lib sample.brokenGetter DefaultConfigKey
      sample.start (GoError.raised "failed to parse config") () rfl).1,
    (CorsOptions_get_error_panics sample.lib sample.brokenGetter DefaultConfigKey
      sample.start (GoError.raised "failed to parse config") () rfl).2.2.1⟩

/-- Claim C6.  When the section is not empty and its decoding fails with `e`,
`CorsOptions` on a fresh provider panics with `e` wrapped under
"failed to figure out cors options"; no options are returned, neither
`defaultOptions` nor a value with some fields decoded. -/
theorem CorsOptions_decode_error_panics {σ H : Type}
    (lib : Libraries H) (getter : kv.Getter σ) (key : String) (w : World σ)
    (raw : Section) (s : σ) (e : GoError)
    (hget : getter.GetStringMap key w.store = (Except.ok raw, s))
    (hne : raw ≠ []) (hdec : lib.figureOut raw = Except.error e) :
    (corser.CorsOptions lib (NewCorser getter key) w).1
      = Except.error (errors.Wrap e "failed to figure out cors options") ∧
    errors.Cause (errors.Wrap e "failed to figure out cors options") = errors.Cause e ∧
    ∀ o : cors.Options,
      (corser.CorsOptions lib (NewCorser getter key) w).1 ≠ Except.ok o := by
  rw [CorsOptions_unresolved lib _ w rfl,
    func1_decode_error lib (NewCorser getter key) w raw s e hget hne hdec]
  refine ⟨rfl, rfl, ?_⟩
  intro o h
  cases h

/-- Witness of C6: a section whose `allow_credentials` is the string "maybe",
decoded by `figure` with the sample conversions. -/
theorem CorsOptions_decode_error_panics_witness :
    (sample.fileGetter sample.testConfig).GetStringMap "bad" sample.start.store
        = (Except.ok sample.badSection, ()) ∧
    sample.badSection ≠ [] ∧
    sample.lib.figureOut sample.badSection
      = Except.error (GoError.raised "unable to cast to bool") ∧
    (corser.CorsOptions sample.lib
        (NewCorser (sample.fileGetter sample.testConfig) "bad") sample.start).1
      = Except.error
          (GoError.wrapped (GoError.raised "unable to cast to bool")
            "failed to figure out cors options") :=
  ⟨rfl, by simp [sample.badSection], rfl,
    (CorsOptions_decode_error_panics sample.lib (sample.fileGetter sample.testConfig)
      "bad" sample.start sample.badSection () (GoError.raised "unable to cast to bool") rfl
      (by simp [sample.badSection]) rfl).1⟩

/-! ## Memoization -/

/-- The closure invokes `GetStringMap` exactly once, whatever happens next. -/
theorem func1_getStringMapCalls {σ H : Type} (lib : Libraries H) (c : corser σ)
    (w : World σ) :
    getStringMapCalls (corser.CorsOptions.func1 lib c w).2.log
      = getStringMapCalls w.log + 1 := by
  unfold corser.CorsOptions.func1
  rcases c.getter.GetStringMap c.key w.store with ⟨r, s⟩
  cases r with
  | error err => simp [getStringMapCalls_append, getStringMapCalls]
  | ok raw =>
    by_cases hlen : raw.length = 0
    · simp [hlen, getStringMapCalls_append, getStringMapCalls]
    · cases hdec : lib.figureOut raw <;>
        simp [hlen, hdec, getStringMapCalls_append, getStringMapCalls]

/-- A call on an unresolved cell settles the cell and invokes `GetStringMap`
exactly once. -/
theorem CorsOptions_settles {σ H : Type} (lib : Libraries H) (c : corser σ)
    (w : World σ) (hc : c.once = comfig.Once.unresolved) :
    (corser.CorsOptions lib c w).2.1.once ≠ comfig.Once.unresolved ∧
    getStringMapCalls (corser.CorsOptions lib c w).2.2.log
      = getStringMapCalls w.log + 1 := by
  have hlog := func1_getStringMapCalls lib c w
  rw [CorsOptions_unresolved lib c w hc]
  rcases hf : corser.CorsOptions.func1 lib c w with ⟨r, w'⟩
  rw [hf] at hlog
  cases r <;> exact ⟨by simp, hlog⟩

/-- A call on a settled cell changes neither the provider nor the world. -/
theorem CorsOptions_settled {σ H : Type} (lib : Libraries H) (c : corser σ)
    (w : World σ) (hc : c.once ≠ comfig.Once.unresolved) :
    (corser.CorsOptions lib c w).2 = (c, w) := by
  cases ho : c.once with
  | unresolved => exact absurd ho hc
  | resolved v => rw [CorsOptions_resolved lib c w v ho]
  | panicked e => rw [CorsOptions_panicked lib c w e ho]

/-- `CorsHandler` leaves the provider and the world as `CorsOptions` does. -/
theorem CorsHandler_state {σ H : Type} (lib : Libraries H) (c : corser σ) (w : World σ) :
    (corser.CorsHandler lib c w).2 = (corser.CorsOptions lib c w).2 := by
  unfold corser.CorsHandler
  rcases corser.CorsOptions lib c w with ⟨r, c', w'⟩
  cases r <;> rfl

/-- Either method leaves the provider and the world as `CorsOptions` does. -/
theorem call_state {σ H : Type} (lib : Libraries H) (c : corser σ) (w : World σ)
    (k : Call) : (corser.call lib c w k).2 = (corser.CorsOptions lib c w).2 := by
  cases k with
  | CorsOptions => rfl
  | CorsHandler => exact CorsHandler_state lib c w

/-- Calls on a settled cell change neither the provider nor the world. -/
theorem calls_settled {σ H : Type} (lib : Libraries H) (c : corser σ) (w : World σ)
    (hc : c.once ≠ comfig.Once.unresolved) (ks : List Call) :
    (corser.calls lib c w ks).2 = (c, w) := by
  induction ks with
  | nil => rfl
  | cons k rest ih =>
    have hk : (corser.call lib c w k).2 = (c, w) := by
      rw [call_state, CorsOptions_settled lib c w hc]
    unfold corser.calls
    rcases hcall : corser.call lib c w k with ⟨r, c', w'⟩
    rw [hcall] at hk
    cases hk
    exact ih

/-- Claim C4.  When the first `CorsOptions` call on a fresh provider succeeds
with `v`, a second call returns `v` again and leaves provider and world as
they were, so `GetStringMap` has been invoked exactly once over both calls;
the second call returns `v` whatever the world then is, in particular when the
getter would answer with another section. -/
theorem CorsOptions_memoized {σ H : Type}
    (lib : Libraries H) (getter : kv.Getter σ) (key : String) (w : World σ)
    (v : cors.Options) (c1 : corser σ) (w1 : World σ)
    (hfirst : corser.CorsOptions lib (NewCorser getter key) w = (Except.ok v, c1, w1)) :
    corser.CorsOptions lib c1 w1 = (Except.ok v, c1, w1) ∧
    getStringMapCalls (corser.CorsOptions lib c1 w1).2.2.log
      = getStringMapCalls w.log + 1 ∧
    ∀ w2 : World σ, corser.CorsOptions lib c1 w2 = (Except.ok v, c1, w2) := by
  have hcount := (CorsOptions_settles lib (NewCorser getter key) w rfl).2
  have hcell : c1.once = comfig.Once.resolved v := by
    rw [CorsOptions_unresolved lib _ w rfl] at hfirst
    rcases hf : corser.CorsOptions.func1 lib (NewCorser getter key) w with ⟨r, w'⟩
    rw [hf] at hfirst
    cases r with
    | error e => simp at hfirst
    | ok v' =>
      simp only [Prod.mk.injEq, Except.ok.injEq] at hfirst
      rw [← hfirst.2.1, hfirst.1]
  rw [hfirst] at hcount
  have hagain := CorsOptions_resolved lib c1
  refine ⟨hagain w1 v hcell, ?_, fun w2 => hagain w2 v hcell⟩
  rw [hagain w1 v hcell]
  exact hcount

/-- Claim C7.  When the first `CorsOptions` call on a fresh provider panics
with `e`, the cell holds that panic, and any number of later `CorsOptions`
calls, in whatever world (also one whose getter would now succeed), each panic
with the same `e` and leave provider and world untouched: `GetStringMap` is
not invoked again and the cell never holds options. -/
theorem CorsOptions_failure_not_retried {σ H : Type}
    (lib : Libraries H) (getter : kv.Getter σ) (key : String) (w : World σ)
    (e : GoError) (c1 : corser σ) (w1 : World σ)
    (hfirst : corser.CorsOptions lib (NewCorser getter key) w = (Except.error e, c1, w1)) :
    c1.once = comfig.Once.panicked e ∧
    ∀ (n : Nat) (w2 : World σ),
      corser.calls lib c1 w2 (List.replicate n Call.CorsOptions)
        = (List.replicate n (Except.error e), c1, w2) := by
  have hcell : c1.once = comfig.Once.panicked e := by
    rw [CorsOptions_unresolved lib _ w rfl] at hfirst
    rcases hf : corser.CorsOptions.func1 lib (NewCorser getter key) w with ⟨r, w'⟩
    rw [hf] at hfirst
    cases r with
    | ok v => simp at hfirst
    | error e' =>
      simp only [Prod.mk.injEq, Except.error.injEq] at hfirst
      rw [← hfirst.2.1, hfirst.1]
  refine ⟨hcell, ?_⟩
  intro n w2
  induction n with
  | zero => rfl
  | succ m ih =>
    simp only [List.replicate_succ, corser.calls, corser.call]
    rw [CorsOptions_panicked lib c1 w2 e hcell]
    simp only [ih]
    rfl

/-- Witness of C4: the getter answers the first request with the section of
`full_config` and would answer a second one with another section; the second
call still returns the options of the first and the log holds one
`GetStringMap`. -/
theorem CorsOptions_memoized_witness :
    corser.CorsOptions sample.lib (NewCorser sample.driftingGetter DefaultConfigKey)
        sample.counting
      = (Except.ok sample.fullResult,
          { getter := sample.driftingGetter
            once := comfig.Once.resolved sample.fullResult
            key := DefaultConfigKey },
          { store := 1
            log := [Event.GetStringMap DefaultConfigKey,
              Event.figureOut sample.fullSection] }) ∧
    sample.driftingGetter.GetStringMap DefaultConfigKey 1
      = (Except.ok sample.originsSection, 2) ∧
    (corser.CorsOptions sample.lib
        { getter := sample.driftingGetter
          once := comfig.Once.resolved sample.fullResult
          key := DefaultConfigKey }
        { store := 1
          log := [Event.GetStringMap DefaultConfigKey,
            Event.figureOut sample.fullSection] }).1
      = Except.ok sample.fullResult ∧
    getStringMapCalls
        (corser.CorsOptions sample.lib
          { getter := sample.driftingGetter
            once := comfig.Once.resolved sample.fullResult
            key := DefaultConfigKey }
          { store := 1
            log := [Event.GetStringMap DefaultConfigKey,
              Event.figureOut sample.fullSection] }).2.2.log
      = 1 :=
  ⟨rfl, rfl,
    congrArg Prod.fst
      (CorsOptions_memoized sample.lib sample.driftingGetter DefaultConfigKey
        sample.counting sample.fullResult _ _ rfl).1,
    (CorsOptions_memoized sample.lib sample.driftingGetter DefaultConfigKey
      sample.counting sample.fullResult _ _ rfl).2.1⟩

/-- Witness of C7: the getter fails on the first request and would succeed on
a second one; two later calls panic with the first error and the store still
counts one request. -/
theorem CorsOptions_failure_not_retried_witness :
    corser.CorsOptions sample.lib (NewCorser sample.recoveringGetter DefaultConfigKey)
        sample.counting
      = (Except.error sample.getFailure,
          { getter := sample.recoveringGetter
            once := comfig.Once.panicked sample.getFailure
            key := DefaultConfigKey },
          { store := 1, log := [Event.GetStringMap DefaultConfigKey] }) ∧
    sample.recoveringGetter.GetStringMap DefaultConfigKey 1
      = (Except.ok sample.fullSection, 2) ∧
    corser.calls sample.lib
        { getter := sample.recoveringGetter
          once := comfig.Once.panicked sample.getFailure
          key := DefaultConfigKey }
        { store := 1, log := [Event.GetStringMap DefaultConfigKey] }
        [Call.CorsOptions, Call.CorsOptions]
      = ([Except.error sample.getFailure, Except.error sample.getFailure],
          { getter := sample.recoveringGetter
            once := comfig.Once.panicked sample.getFailure
            key := DefaultConfigKey },
          { store := 1, log := [Event.GetStringMap DefaultConfigKey] }) :=
  ⟨rfl, rfl,
    (CorsOptions_failure_not_retried sample.lib sample.recoveringGetter DefaultConfigKey
      sample.counting sample.getFailure _ _ rfl).2 2 _⟩

/-! ## The handler -/

/-- Claim C9.  On every provider `CorsHandler` is `cors.Handler` applied to
what `CorsOptions` returns there, leaving the same provider and world behind
(one memoization cell); it panics with an error exactly when `CorsOptions`
does; and over any sequence of `CorsOptions` and `CorsHandler` calls on one
provider `GetStringMap` is invoked at most once. -/
theorem CorsHandler_is_Handler_of_CorsOptions {σ H : Type}
    (lib : Libraries H) (c : corser σ) (w : World σ) :
    corser.CorsHandler lib c w
      = (Except.map lib.Handler (corser.CorsOptions lib c w).1,
          (corser.CorsOptions lib c w).2) ∧
    (∀ e : GoError,
      (corser.CorsHandler lib c w).1 = Except.error e ↔
        (corser.CorsOptions lib c w).1 = Except.error e) ∧
    ∀ ks : List Call,
      getStringMapCalls (corser.calls lib c w ks).2.2.log
        ≤ getStringMapCalls w.log + 1 := by
  refine ⟨?_, ?_, ?_⟩
  · unfold corser.CorsHandler
    rcases corser.CorsOptions lib c w with ⟨r, c', w'⟩
    cases r <;> rfl
  · intro e
    unfold corser.CorsHandler
    rcases corser.CorsOptions lib c w with ⟨r, c', w'⟩
    cases r <;> simp
  · intro ks
    by_cases hc : c.once = comfig.Once.unresolved
    · cases ks with
      | nil => simp [corser.calls]
      | cons k rest =>
        have hstate := call_state lib c w k
        have hset := CorsOptions_settles lib c w hc
        unfold corser.calls
        rcases hcall : corser.call lib c w k with ⟨r, c', w'⟩
        rw [hcall] at hstate
        rw [← hstate] at hset
        have hrest := calls_settled lib c' w' hset.1 rest
        dsimp only
        rcases hcalls : corser.calls lib c' w' rest with ⟨rs, c'', w''⟩
        rw [hcalls] at hrest
        cases hrest
        exact Nat.le_of_eq hset.2
    · rw [calls_settled lib c w hc ks]
      exact Nat.le_succ _

/-! ## Decoding with `figure` -/

/-- A field whose key is absent from the section keeps its zero value. -/
theorem figure_field_absent {α : Type} (hook : Value → Except GoError α)
    (raw : Section) (tag : String) (zero x : α)
    (hfield : figure.field hook raw tag zero = Except.ok x)
    (habsent : raw.get tag = none) : x = zero := by
  unfold figure.field at hfield
  rw [habsent] at hfield
  cases hfield
  rfl

/-- A successful `Please` has read every field through `figure.field`. -/
theorem figure_Please_ok (h : figure.Hooks) (raw : Section) (d : CorsOptions)
    (hdec : figure.Please h raw = Except.ok d) :
    figure.field h.strings raw "allowed_origins" [] = Except.ok d.AllowedOrigins ∧
    figure.field h.strings raw "allowed_methods" [] = Except.ok d.AllowedMethods ∧
    figure.field h.strings raw "allowed_headers" [] = Except.ok d.AllowedHeaders ∧
    figure.field h.strings raw "exposed_headers" [] = Except.ok d.ExposedHeaders ∧
    figure.field h.bool raw "allow_credentials" false = Except.ok d.AllowCredentials ∧
    figure.field h.int raw "max_age" 0 = Except.ok d.MaxAge ∧
    figure.field h.bool raw "options_passthrough" false
      = Except.ok d.OptionsPassthrough ∧
    figure.field h.bool raw "debug" false = Except.ok d.Debug := by
  unfold figure.Please at hdec
  split at hdec
  · cases hdec
  split at hdec
  · cases hdec
  split at hdec
  · cases hdec
  split at hdec
  · cases hdec
  split at hdec
  · cases hdec
  split at hdec
  · cases hdec
  split at hdec
  · cases hdec
  split at hdec
  · cases hdec
  cases hdec
  refine ⟨?_, ?_, ?_, ?_, ?_, ?_, ?_, ?_⟩ <;> assumption

/-- Sections that agree on the eight recognized keys decode alike. -/
theorem figure_Please_congr (h : figure.Hooks) (a b : Section)
    (hagree : agreeOnTags a b) : figure.Please h a = figure.Please h b := by
  have h1 := hagree "allowed_origins" (by simp [CorsOptions.tags])
  have h2 := hagree "allowed_methods" (by simp [CorsOptions.tags])
  have h3 := hagree "allowed_headers" (by simp [CorsOptions.tags])
  have h4 := hagree "exposed_headers" (by simp [CorsOptions.tags])
  have h5 := hagree "allow_credentials" (by simp [CorsOptions.tags])
  have h6 := hagree "max_age" (by simp [CorsOptions.tags])
  have h7 := hagree "options_passthrough" (by simp [CorsOptions.tags])
  have h8 := hagree "debug" (by simp [CorsOptions.tags])
  unfold figure.Please figure.field
  rw [h1, h2, h3, h4, h5, h6, h7, h8]

/-- Claim C3.  With `figure` as the decoder: when the section is not empty and
`CorsOptions` on a fresh provider returns options `o`, every one of the eight
fields whose key is absent from the section has its zero value in `o` (empty
sequence, false, 0), not the value `defaultOptions` has there. -/
theorem CorsOptions_absent_keys_zero {σ H : Type}
    (h : figure.Hooks) (handler : cors.Options → H) (getter : kv.Getter σ)
    (key : String) (w : World σ) (raw : Section) (s : σ) (o : cors.Options)
    (hget : getter.GetStringMap key w.store = (Except.ok raw, s))
    (hne : raw ≠ [])
    (hres : (corser.CorsOptions (figureLib h handler) (NewCorser getter key) w).1
      = Except.ok o) :
    (raw.get "allowed_origins" = none → o.AllowedOrigins = []) ∧
    (raw.get "allowed_methods" = none → o.AllowedMethods = []) ∧
    (raw.get "allowed_headers" = none → o.AllowedHeaders = []) ∧
    (raw.get "exposed_headers" = none → o.ExposedHeaders = []) ∧
    (raw.get "allow_credentials" = none → o.AllowCredentials = false) ∧
    (raw.get "max_age" = none → o.MaxAge = 0) ∧
    (raw.get "options_passthrough" = none → o.OptionsPassthrough = false) ∧
    (raw.get "debug" = none → o.Debug = false) := by
  rw [CorsOptions_unresolved _ _ w rfl] at hres
  cases hdec : figure.Please h raw with
  | error e =>
    rw [func1_decode_error (figureLib h handler) (NewCorser getter key) w raw s e
      hget hne hdec] at hres
    cases hres
  | ok d =>
    rw [func1_decode_ok (figureLib h handler) (NewCorser getter key) w raw s d
      hget hne hdec] at hres
    cases hres
    obtain ⟨f1, f2, f3, f4, f5, f6, f7, f8⟩ := figure_Please_ok h raw d hdec
    exact ⟨figure_field_absent _ _ _ _ _ f1, figure_field_absent _ _ _ _ _ f2,
      figure_field_absent _ _ _ _ _ f3, figure_field_absent _ _ _ _ _ f4,
      figure_field_absent _ _ _ _ _ f5, figure_field_absent _ _ _ _ _ f6,
      figure_field_absent _ _ _ _ _ f7, figure_field_absent _ _ _ _ _ f8⟩

/-- Witness of C3 on the test case `allowed_origins`: the section holds only
`allowed_origins`, the result is that single origin with every other field at
its zero value; the test cases `allowed_methods`, `allowed_headers` and
`exposed_headers` resolve likewise. -/
theorem CorsOptions_absent_keys_zero_witness :
    (sample.fileGetter sample.testConfig).GetStringMap "origins" sample.start.store
        = (Except.ok sample.originsSection, ()) ∧
    sample.originsSection ≠ [] ∧
    (corser.CorsOptions sample.lib
        (NewCorser (sample.fileGetter sample.testConfig) "origins") sample.start).1
      = Except.ok { AllowedOrigins := ["http://localhost:3000"] } ∧
    (corser.CorsOptions sample.lib
        (NewCorser (sample.fileGetter sample.testConfig) "methods") sample.start).1
      = Except.ok { AllowedMethods := ["GET", "POST"] } ∧
    (corser.CorsOptions sample.lib
        (NewCorser (sample.fileGetter sample.testConfig) "headers") sample.start).1
      = Except.ok { AllowedHeaders := ["X-Header"] } ∧
    (corser.CorsOptions sample.lib
        (NewCorser (sample.fileGetter sample.testConfig) "exposed") sample.start).1
      = Except.ok { ExposedHeaders := ["X-Header"] } ∧
    ((sample.originsSection.get "allowed_origins" = none →
        ({ AllowedOrigins := ["http://localhost:3000"] } : cors.Options).AllowedOrigins = []) ∧
      (sample.originsSection.get "allowed_methods" = none →
        ({ AllowedOrigins := ["http://localhost:3000"] } : cors.Options).AllowedMethods = []) ∧
      (sample.originsSection.get "allowed_headers" = none →
        ({ AllowedOrigins := ["http://localhost:3000"] } : cors.Options).AllowedHeaders = []) ∧
      (sample.originsSection.get "exposed_headers" = none →
        ({ AllowedOrigins := ["http://localhost:3000"] } : cors.Options).ExposedHeaders = []) ∧
      (sample.originsSection.get "allow_credentials" = none →
        ({ AllowedOrigins := ["http://localhost:3000"] } : cors.Options).AllowCredentials
          = false) ∧
      (sample.originsSection.get "max_age" = none →
        ({ AllowedOrigins := ["http://localhost:3000"] } : cors.Options).MaxAge = 0) ∧
      (sample.originsSection.get "options_passthrough" = none →
        ({ AllowedOrigins := ["http://localhost:3000"] } : cors.Options).OptionsPassthrough
          = false) ∧
      (sample.originsSection.get "debug" = none →
        ({ AllowedOrigins := ["http://localhost:3000"] } : cors.Options).Debug = false)) :=
  ⟨rfl, by simp [sample.originsSection], rfl, rfl, rfl, rfl,
    CorsOptions_absent_keys_zero sample.hooks id (sample.fileGetter sample.testConfig)
      "origins" sample.start sample.originsSection ()
      { AllowedOrigins := ["http://localhost:3000"] } rfl
      (by simp [sample.originsSection]) rfl⟩

/-! ## Unrecognized keys -/

/-- Counterexample to C8 as stated: the empty section and a section whose only
key is unrecognized agree on the eight recognized keys (all absent), yet the
first resolves to `defaultOptions` and the second to the all-zero options. -/
theorem unrecognized_key_alone_loses_defaultOptions :
    agreeOnTags [] sample.commentSection ∧
    (sample.fileGetter sample.testConfig).GetStringMap "non-existent-key" sample.start.store
      = (Except.ok [], ()) ∧
    (sample.fileGetter sample.testConfig).GetStringMap "comment_only" sample.start.store
      = (Except.ok sample.commentSection, ()) ∧
    (corser.CorsOptions sample.lib
        (NewCorser (sample.fileGetter sample.testConfig) "non-existent-key") sample.start).1
      = Except.ok defaultOptions ∧
    (corser.CorsOptions sample.lib
        (NewCorser (sample.fileGetter sample.testConfig) "comment_only") sample.start).1
      = Except.ok {} ∧
    (corser.CorsOptions sample.lib
        (NewCorser (sample.fileGetter sample.testConfig) "non-existent-key") sample.start).1
      ≠ (corser.CorsOptions sample.lib
        (NewCorser (sample.fileGetter sample.testConfig) "comment_only") sample.start).1 := by
  refine ⟨?_, rfl, rfl, rfl, rfl, ?_⟩
  · intro tag htag
    simp only [CorsOptions.tags, List.mem_cons, List.mem_singleton, List.not_mem_nil,
      or_false] at htag
    rcases htag with rfl | rfl | rfl | rfl | rfl | rfl | rfl | rfl <;> rfl
  · intro heq
    have hleft :
        (corser.CorsOptions sample.lib
          (NewCorser (sample.fileGetter sample.testConfig) "non-existent-key")
          sample.start).1 = Except.ok defaultOptions := rfl
    have hright :
        (corser.CorsOptions sample.lib
          (NewCorser (sample.fileGetter sample.testConfig) "comment_only")
          sample.start).1 = Except.ok {} := rfl
    rw [hleft, hright] at heq
    injection heq with heq
    have horigins := congrArg cors.Options.AllowedOrigins heq
    simp [defaultOptions] at horigins

/-- Claim C8, amended.  With `figure` as the decoder: two sections that agree
on the eight recognized keys and are both empty or both not empty resolve, on
fresh providers, to the same result: the same options or the same panic. -/
theorem CorsOptions_ignores_unrecognized_keys {σ₁ σ₂ H : Type}
    (h : figure.Hooks) (handler : cors.Options → H)
    (g₁ : kv.Getter σ₁) (g₂ : kv.Getter σ₂) (k₁ k₂ : String)
    (w₁ : World σ₁) (w₂ : World σ₂) (a b : Section) (s₁ : σ₁) (s₂ : σ₂)
    (hg₁ : g₁.GetStringMap k₁ w₁.store = (Except.ok a, s₁))
    (hg₂ : g₂.GetStringMap k₂ w₂.store = (Except.ok b, s₂))
    (hagree : agreeOnTags a b) (hboth : a = [] ↔ b = []) :
    (corser.CorsOptions (figureLib h handler) (NewCorser g₁ k₁) w₁).1
      = (corser.CorsOptions (figureLib h handler) (NewCorser g₂ k₂) w₂).1 := by
  rw [CorsOptions_unresolved _ _ w₁ rfl, CorsOptions_unresolved _ _ w₂ rfl]
  by_cases ha : a = []
  · have hb : b = [] := hboth.mp ha
    subst ha
    subst hb
    rw [func1_empty _ (NewCorser g₁ k₁) w₁ s₁ hg₁,
      func1_empty _ (NewCorser g₂ k₂) w₂ s₂ hg₂]
  · have hb : b ≠ [] := fun hb => ha (hboth.mpr hb)
    have hsame := figure_Please_congr h a b hagree
    cases hdec : figure.Please h a with
    | error e =>
      rw [func1_decode_error (figureLib h handler) (NewCorser g₁ k₁) w₁ a s₁ e hg₁ ha hdec,
        func1_decode_error (figureLib h handler) (NewCorser g₂ k₂) w₂ b s₂ e hg₂ hb
          (hsame.symm.trans hdec)]
    | ok d =>
      rw [func1_decode_ok (figureLib h handler) (NewCorser g₁ k₁) w₁ a s₁ d hg₁ ha hdec,
        func1_decode_ok (figureLib h handler) (NewCorser g₂ k₂) w₂ b s₂ d hg₂ hb
          (hsame.symm.trans hdec)]

/-- Witness of C8 as amended: the section of `allowed_origins` with and
without an unrecognized key in front resolves to the same options. -/
theorem CorsOptions_ignores_unrecognized_keys_witness :
    (sample.fileGetter sample.testConfig).GetStringMap "origins" sample.start.store
      = (Except.ok sample.originsSection, ()) ∧
    (sample.fileGetter sample.testConfig).GetStringMap "annotated" sample.start.store
      = (Except.ok sample.annotatedSection, ()) ∧
    agreeOnTags sample.originsSection sample.annotatedSection ∧
    (sample.originsSection = [] ↔ sample.annotatedSection = []) ∧
    (corser.CorsOptions sample.lib
        (NewCorser (sample.fileGetter sample.testConfig) "origins") sample.start).1
      = (corser.CorsOptions sample.lib
        (NewCorser (sample.fileGetter sample.testConfig) "annotated") sample.start).1 :=
  have hagree : agreeOnTags sample.originsSection sample.annotatedSection := by
    intro tag htag
    simp only [CorsOptions.tags, List.mem_cons, List.mem_singleton, List.not_mem_nil,
      or_false] at htag
    rcases htag with rfl | rfl | rfl | rfl | rfl | rfl | rfl | rfl <;> rfl
  have hboth : sample.originsSection = [] ↔ sample.annotatedSection = [] := by
    simp [sample.originsSection, sample.annotatedSection]
  ⟨rfl, rfl, hagree, hboth,
    CorsOptions_ignores_unrecognized_keys sample.hooks id
      (sample.fileGetter sample.testConfig) (sample.fileGetter sample.testConfig)
      "origins" "annotated" sample.start sample.start
      sample.originsSection sample.annotatedSection () () rfl rfl hagree hboth⟩
